import Mathlib

set_option maxRecDepth 100000

/-!
# Verification of the near-duplicate news detector (src/check_dup.py)

Shallow embedding of the core component of the Macro-News-Summary
repository: the near-duplicate news detector in `src/check_dup.py`.

Conventions of the embedding:
* Python strings are `String` / `List Char` (ASCII fragment; all string
  constants of the source are ASCII).
* Python floats are exact rationals `ℚ`; scores are always quotients
  `2*M/(la+lb)` of small naturals, far from the binary-rounding noise of
  IEEE doubles, so exact rational comparison against the thresholds
  4/5 and 3/5 is the intended semantics of `score >= DUP_THRESHOLD` etc.
* `difflib.SequenceMatcher` (with `isjunk=None`) is modelled by its
  documented algorithm: the longest matching block of two character
  sequences, ties broken by the earliest start in the first sequence and
  then in the second, recursively applied left and right of the block;
  the ratio is `2 * total matched / (len(a) + len(b))` and `1.0` when both
  are empty.  The `autojunk` popularity heuristic (which only affects
  second arguments of length ≥ 200) is not modelled.
* The module-level configuration globals `DUP_THRESHOLD`,
  `SIMILAR_THRESHOLD` and `MAX_PAIR_COMPARISONS` are passed to
  `analyze_duplicates` as explicit parameters (the standard embedding of a
  global environment); `analyzeDefault` fixes them to the values of the
  source.
-/

/-! ## difflib.SequenceMatcher model -/

/-- Longest common prefix length of two character lists. -/
def lcp : List Char → List Char → Nat
  | a :: as, b :: bs => if a = b then lcp as bs + 1 else 0
  | _, _ => 0

/-- All index pairs (i, j) with i < la and j < lb, in lexicographic order. -/
def idxPairs (la lb : Nat) : List (Nat × Nat) :=
  (List.range la).flatMap (fun i => (List.range lb).map (fun j => (i, j)))

/-- `find_longest_match` over whole sequences (no junk): the block
`(i, j, k)` with maximal length `k = lcp (a.drop i) (b.drop j)`, ties
broken by smallest `i`, then smallest `j`.  Folding the candidates in
lexicographic order and replacing only on a strictly larger length keeps
exactly the first maximal block. -/
def find_longest_match (a b : List Char) : Nat × Nat × Nat :=
  (idxPairs a.length b.length).foldl
    (fun best ij =>
      let k := lcp (a.drop ij.1) (b.drop ij.2)
      if best.2.2 < k then (ij.1, ij.2, k) else best)
    (0, 0, 0)

/-- Total matched characters of `get_matching_blocks`: the longest block,
plus recursively the matches strictly left and strictly right of it.  The
fuel only bounds the recursion depth: every recursive call strictly
shrinks the first sequence, so fuel `a.length + 1` always suffices. -/
def matchTotalAux : Nat → List Char → List Char → Nat
  | 0, _, _ => 0
  | fuel + 1, a, b =>
    if (find_longest_match a b).2.2 = 0 then 0
    else
      matchTotalAux fuel (a.take (find_longest_match a b).1)
          (b.take (find_longest_match a b).2.1) +
        (find_longest_match a b).2.2 +
        matchTotalAux fuel
          (a.drop ((find_longest_match a b).1 + (find_longest_match a b).2.2))
          (b.drop ((find_longest_match a b).2.1 + (find_longest_match a b).2.2))

/-- Total matched characters between two character sequences. -/
def matchTotal (a b : List Char) : Nat := matchTotalAux (a.length + 1) a b

/-- `SequenceMatcher.ratio()` as an exact rational:
`2*M / (len(a) + len(b))`, and `1.0` when both sequences are empty. -/
def ratioQ (a b : List Char) : ℚ :=
  if a.length + b.length = 0 then 1
  else mkRat (2 * matchTotal a b) (a.length + b.length)

/-- `compute_similarity` of src/check_dup.py: `0.0` when either string is
empty, otherwise the SequenceMatcher ratio. -/
def compute_similarity (a b : List Char) : ℚ :=
  if a = [] ∨ b = [] then 0 else ratioQ a b

/-! ## Text normalisation (`normalize_text`) -/

/-- Python whitespace (`str.strip` default, regex `\s`), ASCII fragment. -/
def pyIsSpace (c : Char) : Bool :=
  c == ' ' || c == '\t' || c == '\n' || c == '\r' || c == '\x0b' || c == '\x0c'

/-- Python `str.strip()` on a character list. -/
def pyStripList (l : List Char) : List Char :=
  ((l.dropWhile pyIsSpace).reverse.dropWhile pyIsSpace).reverse

/-- Python `str.strip()`. -/
def pyStrip (s : String) : String := ⟨pyStripList s.data⟩

/-- Match of the regex `http[s]?://\S+` at the head of the list: the
scheme (greedy `[s]?`, so `https://` is tried first) followed by at least
one non-whitespace character; returns the remainder after the greedy
`\S+`. -/
def matchUrl (l : List Char) : Option (List Char) :=
  let after : List Char → Option (List Char) := fun rest =>
    match rest with
    | [] => none
    | c :: _ => if pyIsSpace c then none
                else some (rest.dropWhile (fun d => !pyIsSpace d))
  if "https://".data.isPrefixOf l then after (l.drop 8)
  else if "http://".data.isPrefixOf l then after (l.drop 7)
  else none

/-- `re.sub(r"http[s]?://\S+", " ", ·)`: scan left to right, replacing
each (non-overlapping, greedy) URL match by one space.  Fuel bounds the
scan; `l.length` suffices since every step consumes at least one
character. -/
def stripUrlsAux : Nat → List Char → List Char
  | 0, _ => []
  | _, [] => []
  | fuel + 1, c :: rest =>
    match matchUrl (c :: rest) with
    | some rest' => ' ' :: stripUrlsAux fuel rest'
    | none => c :: stripUrlsAux fuel rest

/-- URL removal pass of `normalize_text`. -/
def stripUrls (l : List Char) : List Char := stripUrlsAux l.length l

/-- `re.sub(r"[^a-z0-9\s]", " ", ·)` on one character. -/
def keepAlnum (c : Char) : Char :=
  if ('a' ≤ c ∧ c ≤ 'z') ∨ ('0' ≤ c ∧ c ≤ '9') ∨ pyIsSpace c then c else ' '

/-- Maximal runs of non-whitespace characters (the accumulator carries the
current run, reversed). -/
def wordsAux : List Char → List Char → List (List Char)
  | [], acc => if acc = [] then [] else [acc.reverse]
  | c :: rest, acc =>
    if pyIsSpace c then
      if acc = [] then wordsAux rest [] else acc.reverse :: wordsAux rest []
    else wordsAux rest (c :: acc)

/-- `re.sub(r"\s+", " ", ·).strip()`: the whitespace-separated words joined
by single spaces. -/
def collapseSpaces (l : List Char) : List Char :=
  List.intercalate [' '] (wordsAux l [])

/-- `normalize_text` of src/check_dup.py: lowercase, strip URLs, replace
everything outside `[a-z0-9\s]` by spaces, collapse whitespace, strip. -/
def normalize_text (s : String) : String :=
  ⟨collapseSpaces ((stripUrls (s.data.map Char.toLower)).map keepAlnum)⟩

/-! ## Record parsing (`parse_line_to_item`, `infer_origin`) -/

/-- Split a character list at each `'|'`. -/
def splitOnPipe : List Char → List (List Char)
  | [] => [[]]
  | c :: rest =>
    if c = '|' then [] :: splitOnPipe rest
    else
      match splitOnPipe rest with
      | [] => [[c]]
      | p :: ps => (c :: p) :: ps

/-- Drop trailing Python whitespace. -/
def dropRightSpace (l : List Char) : List Char :=
  (l.reverse.dropWhile pyIsSpace).reverse

/-- Whitespace trimming of the parts after the first: leading whitespace
was adjacent to the preceding `'|'`; trailing whitespace of every part
except the last was adjacent to the following `'|'`. -/
def trimMidLast : List (List Char) → List (List Char)
  | [] => []
  | [q] => [q.dropWhile pyIsSpace]
  | q :: rest => dropRightSpace (q.dropWhile pyIsSpace) :: trimMidLast rest

/-- `re.split(r"\s*\|\s*", line)`: split at `'|'`, consuming the
whitespace adjacent to each separator. -/
def splitFields (l : List Char) : List (List Char) :=
  match splitOnPipe l with
  | [] => []
  | [p] => [p]
  | p :: rest => dropRightSpace p :: trimMidLast rest

/-- `part.split(": ", 1)`: split at the first occurrence of `": "`. -/
def splitColonSpace : List Char → Option (List Char × List Char)
  | [] => none
  | ':' :: ' ' :: rest => some ([], rest)
  | c :: rest =>
    match splitColonSpace rest with
    | some kv => some (c :: kv.1, kv.2)
    | none => none

/-- The field dictionary of one line: every part containing `": "`
contributes `key.strip().lower() ↦ value.strip()`; later parts overwrite
earlier ones (Python dict assignment). -/
def fieldsOf (line : String) : List (String × String) :=
  (splitFields line.data).foldl
    (fun fs part =>
      match splitColonSpace part with
      | some kv =>
          fs ++ [(⟨(pyStripList kv.1).map Char.toLower⟩, ⟨pyStripList kv.2⟩)]
      | none => fs)
    []

/-- `fields.get(k)` with the later-assignment-wins dictionary semantics. -/
def getField (fs : List (String × String)) (k : String) : Option String :=
  fs.foldl (fun acc kv => if kv.1 = k then some kv.2 else acc) none

/-- Python `or` on strings: the first operand unless it is empty. -/
def pyOr (a b : String) : String := if a = "" then b else a

/-- Python `str.startswith`. -/
def strStarts (s p : String) : Bool := p.data.isPrefixOf s.data

/-- `infer_origin` of src/check_dup.py: prefix rules mapping the Section
field to a logical origin bucket, with an explicit missing-section
sentinel and a catch-all bucket carrying the raw section string. -/
def infer_origin (sec : String) : String :=
  if sec = "" then "Unknown(missing-section)"
  else if strStarts sec "Yahoo-" then "Yahoo Finance"
  else if strStarts sec "Finnhub-" then "Finnhub"
  else if strStarts sec "NewsAPI-" then "NewsAPI"
  else if strStarts sec "AlphaVantage-" then "AlphaVantage"
  else if strStarts sec "FMP-" then "FMP"
  else if strStarts sec "MarketAux-" then "MarketAux"
  else if sec = "Bloomberg-newsletter" then "Bloomberg RSS"
  else if sec = "FXStreet" then "FXStreet RSS"
  else if strStarts sec "TradingEconomics-" then "TradingEconomics"
  else if strStarts sec "CB-" then "CentralBank"
  else "UnknownOrigin(" ++ sec ++ ")"

/-- The known (non-catch-all) origin buckets of `infer_origin`. -/
def knownOrigins : List String :=
  ["Unknown(missing-section)", "Yahoo Finance", "Finnhub", "NewsAPI",
   "AlphaVantage", "FMP", "MarketAux", "Bloomberg RSS", "FXStreet RSS",
   "TradingEconomics", "CentralBank"]

/-- `NewsItem` of src/check_dup.py (`section` is a Lean keyword and is
named `sec`; `type` of `SimilarityHit` keeps its name). -/
structure NewsItem where
  idx : Nat
  raw_line : String
  source : String
  sec : String
  title : String
  summary : String
  text_for_similarity : List Char
  origin : String
deriving DecidableEq

/-- Placeholder item for out-of-range index access (never reached for the
in-range indices produced by the pair enumeration). -/
def defaultNewsItem : NewsItem :=
  { idx := 0, raw_line := "", source := "", sec := "", title := "",
    summary := "", text_for_similarity := [], origin := "" }

/-- `parse_line_to_item` of src/check_dup.py. -/
def parse_line_to_item (line : String) (idx : Nat) : NewsItem :=
  let fs := fieldsOf line
  let source := (getField fs "source").getD "Unknown"
  let sec := (getField fs "section").getD "Unknown"
  let title := (getField fs "title").getD ""
  let summary :=
    pyOr ((getField fs "summary").getD "")
      (pyOr ((getField fs "description").getD "") "")
  let combined := pyStrip (title ++ ". " ++ summary)
  let normText := normalize_text combined
  { idx, raw_line := line, source, sec, title, summary,
    text_for_similarity := (pyOr normText (normalize_text title)).data,
    origin := infer_origin sec }

/-! ## The analysis (`analyze_duplicates`) -/

/-- `SimilarityHit` of src/check_dup.py. -/
structure SimilarityHit where
  i : Nat
  j : Nat
  score : ℚ
  type : String
deriving DecidableEq

/-- The enumeration order of the pair scan:
`for i in range(n): for j in range(i)`. -/
def allPairs (n : Nat) : List (Nat × Nat) :=
  (List.range n).flatMap (fun i => (List.range i).map (fun j => (i, j)))

/-- Strict lexicographic order on scan pairs: ascending `i`, then
ascending `j`. -/
def pairLT (p q : Nat × Nat) : Prop :=
  p.1 < q.1 ∨ (p.1 = q.1 ∧ p.2 < q.2)

/-- The pair loop with the cap: `pair_count` is incremented for each
considered pair and the loops break (WARNING branch, `truncated = true`)
as soon as it exceeds the cap, before scoring that pair.  Returns the
pairs actually scored, in order, and the truncation flag. -/
def scanPairs (cap : Nat) : List (Nat × Nat) → Nat → List (Nat × Nat) × Bool
  | [], _ => ([], false)
  | p :: rest, count =>
    if cap < count + 1 then ([], true)
    else
      let r := scanPairs cap rest (count + 1)
      (p :: r.1, r.2)

/-- The score of one scored pair: `1.0` on character-for-character equal
comparison texts (short-circuit), else `compute_similarity`. -/
def pairScore (a b : NewsItem) : ℚ :=
  if a.text_for_similarity = b.text_for_similarity then 1
  else compute_similarity a.text_for_similarity b.text_for_similarity

/-- The hits recorded by the scan over the given pairs: pairs whose score
reaches `SIMILAR_THRESHOLD`, tagged `"dup"` when the score also reaches
`DUP_THRESHOLD`, else `"similar"`. -/
def hitsOf (dupT simT : ℚ) (items : List NewsItem) (pairs : List (Nat × Nat)) :
    List SimilarityHit :=
  pairs.filterMap (fun ij =>
    let a := items.getD ij.1 defaultNewsItem
    let b := items.getD ij.2 defaultNewsItem
    let score := pairScore a b
    if simT ≤ score then
      some { i := ij.1, j := ij.2, score := score,
             type := if dupT ≤ score then "dup" else "similar" }
    else none)

/-- One marking step of the loop: when the hit satisfies the branch
condition, set index `i` of the boolean array. -/
def markStep (cond : SimilarityHit → Bool) (m : Nat → Bool) (h : SimilarityHit) :
    Nat → Bool :=
  if cond h then fun idx => if idx = h.i then true else m idx else m

/-- The `is_dup` array: for each recorded hit of type `"dup"`, index `i`
(the later record of the pair) is marked. -/
def markDup (hits : List SimilarityHit) : Nat → Bool :=
  hits.foldl (markStep (fun h => h.type == "dup")) (fun _ => false)

/-- The `is_similar` array: the else-branch marks index `i` of every
recorded hit that is not of type `"dup"`. -/
def markSimilar (hits : List SimilarityHit) : Nat → Bool :=
  hits.foldl (markStep (fun h => !(h.type == "dup"))) (fun _ => false)

/-- Per-bucket statistics record of `analyze_duplicates`. -/
structure BucketStat where
  total : Nat
  dup : Nat
  similar : Nat
  dup_rate : ℚ
  similar_rate : ℚ
deriving DecidableEq

/-- The statistics of bucket `k` under the keying function `f`: the total
pass counts the items of the bucket; the classification pass counts each
record at most once (`is_dup` wins over `is_similar`); the rate pass
divides by `total or 1`. -/
def bucketStat (items : List NewsItem) (hits : List SimilarityHit)
    (f : NewsItem → String) (k : String) : BucketStat :=
  let total := (items.map f).count k
  let dup := items.enum.countP (fun p => f p.2 == k && markDup hits p.1)
  let similar :=
    items.enum.countP
      (fun p => f p.2 == k && !markDup hits p.1 && markSimilar hits p.1)
  let t := if total = 0 then 1 else total
  { total, dup, similar,
    dup_rate := mkRat dup t, similar_rate := mkRat (dup + similar) t }

/-- Code-point lexicographic order on character lists (Python string
comparison). -/
def lexLtCh : List Char → List Char → Bool
  | [], [] => false
  | [], _ :: _ => true
  | _ :: _, [] => false
  | a :: as, b :: bs => if a < b then true else if b < a then false else lexLtCh as bs

/-- Python `<` on strings. -/
def pyStrLt (s t : String) : Bool := lexLtCh s.data t.data

/-- Python `sorted([x, y])`: stable, so the pair is swapped exactly when
the second string sorts strictly before the first. -/
def sortPair (x y : String) : String × String :=
  if pyStrLt y x then (y, x) else (x, y)

/-- `defaultdict(int)` increment: bump the counter of key `k`, first
occurrence starting at 1. -/
def bumpKey (m : List ((String × String) × Nat)) (k : String × String) :
    List ((String × String) × Nat) :=
  if m.any (fun e => e.1 == k) then
    m.map (fun e => if e.1 == k then (e.1, e.2 + 1) else e)
  else m ++ [(k, 1)]

/-- `origin_overlap`: for every recorded hit, the unordered (sorted) pair
of the two records' origins is bumped. -/
def overlapOf (items : List NewsItem) (hits : List SimilarityHit) :
    List ((String × String) × Nat) :=
  hits.foldl
    (fun m h =>
      bumpKey m (sortPair (items.getD h.i defaultNewsItem).origin
                          (items.getD h.j defaultNewsItem).origin))
    []

/-- The tuple returned by `analyze_duplicates` (statistics maps are
key-set plus lookup function). -/
structure AnalysisResult where
  hits : List SimilarityHit
  sourceKeys : List String
  sectionKeys : List String
  originKeys : List String
  sourceStat : String → BucketStat
  sectionStat : String → BucketStat
  originStat : String → BucketStat
  originOverlap : List ((String × String) × Nat)
  truncated : Bool

/-- `analyze_duplicates` of src/check_dup.py, with the module globals
`DUP_THRESHOLD`, `SIMILAR_THRESHOLD`, `MAX_PAIR_COMPARISONS` passed as
explicit parameters. -/
def analyze_duplicates (dupT simT : ℚ) (cap : Nat) (items : List NewsItem) :
    AnalysisResult :=
  let n := items.length
  let scan := scanPairs cap (allPairs n) 0
  let hits := hitsOf dupT simT items scan.1
  { hits
    sourceKeys := (items.map (·.source)).dedup
    sectionKeys := (items.map (·.sec)).dedup
    originKeys := (items.map (·.origin)).dedup
    sourceStat := fun k => bucketStat items hits (·.source) k
    sectionStat := fun k => bucketStat items hits (·.sec) k
    originStat := fun k => bucketStat items hits (·.origin) k
    originOverlap := overlapOf items hits
    truncated := scan.2 }

/-- Module constant `DUP_THRESHOLD = 0.80`. -/
def DUP_THRESHOLD : ℚ := mkRat 4 5

/-- Module constant `SIMILAR_THRESHOLD = 0.60`. -/
def SIMILAR_THRESHOLD : ℚ := mkRat 3 5

/-- Module constant `MAX_PAIR_COMPARISONS = 300_000`. -/
def MAX_PAIR_COMPARISONS : Nat := 300000

/-- The analysis with the source's module constants. -/
def analyzeDefault (items : List NewsItem) : AnalysisResult :=
  analyze_duplicates DUP_THRESHOLD SIMILAR_THRESHOLD MAX_PAIR_COMPARISONS items

/-! ## Claim-level auxiliary definitions and concrete inputs -/

/-- The classification of claim C1, following the claim's words: a record
is a duplicate when it participates, as either member of the pair, in
some recorded hit whose score reaches the duplicate threshold. -/
def claimDupHere (hits : List SimilarityHit) (dupT : ℚ) (idx : Nat) : Bool :=
  hits.any (fun h => (h.i == idx || h.j == idx) && decide (dupT ≤ h.score))

/-- The per-source duplicate count that claim C1 predicts. -/
def claimDupCount (items : List NewsItem) (hits : List SimilarityHit)
    (dupT : ℚ) (k : String) : Nat :=
  items.enum.countP (fun p => p.2.source == k && claimDupHere hits dupT p.1)

/-- Claim C1 as stated, at the default thresholds, restricted to the
source buckets (already enough to refute it): every source bucket's
duplicate count equals the count of its records participating in a
duplicate-threshold hit as either member. -/
def c1ClaimHolds (items : List NewsItem) : Prop :=
  ∀ k ∈ (analyzeDefault items).sourceKeys,
    ((analyzeDefault items).sourceStat k).dup =
      claimDupCount items (analyzeDefault items).hits DUP_THRESHOLD k

/-- A concrete test item (no parsing involved; `analyze_duplicates` takes
records directly). -/
def mkTestItem (idx : Nat) (source sec : String) (text : List Char)
    (origin : String) : NewsItem :=
  { idx, raw_line := "", source, sec, title := "", summary := "",
    text_for_similarity := text, origin }

/-- C1 counterexample input: two records with identical non-empty
comparison texts and the same source. -/
def exC1 : List NewsItem :=
  [mkTestItem 0 "A" "S" "hello fed".data "O",
   mkTestItem 1 "A" "S" "hello fed".data "O"]

/-- C2 counterexample input: two records whose comparison texts are both
empty. -/
def exC2 : List NewsItem :=
  [mkTestItem 0 "A" "S1" [] "O1",
   mkTestItem 1 "B" "S2" [] "O2"]


/-! ## Helper lemmas: the similarity score -/

theorem lcp_le_left (a : List Char) : ∀ b : List Char, lcp a b ≤ a.length := by
  induction a with
  | nil => intro b; cases b <;> simp [lcp]
  | cons x as ih =>
    intro b
    cases b with
    | nil => simp [lcp]
    | cons y bs =>
      by_cases h : x = y
      · simpa [lcp, h] using ih bs
      · simp [lcp, h]

theorem lcp_le_right (a : List Char) : ∀ b : List Char, lcp a b ≤ b.length := by
  induction a with
  | nil => intro b; cases b <;> simp [lcp]
  | cons x as ih =>
    intro b
    cases b with
    | nil => simp [lcp]
    | cons y bs =>
      by_cases h : x = y
      · simpa [lcp, h] using ih bs
      · simp [lcp, h]

/-- Fold invariant helper: a property preserved by every step holds of the
result. -/
theorem foldl_preserve {α β : Type} {P : β → Prop} (f : β → α → β) :
    ∀ (l : List α) (init : β), P init →
      (∀ acc x, x ∈ l → P acc → P (f acc x)) → P (l.foldl f init) := by
  intro l
  induction l with
  | nil => intro init h _; exact h
  | cons x xs ih =>
    intro init h hstep
    exact ih (f init x) (hstep init x (by simp) h)
      (fun acc y hy hacc => hstep acc y (by simp [hy]) hacc)

theorem mem_idxPairs {la lb : Nat} {p : Nat × Nat} (h : p ∈ idxPairs la lb) :
    p.1 < la ∧ p.2 < lb := by
  simp only [idxPairs, List.mem_flatMap, List.mem_map, List.mem_range] at h
  obtain ⟨i, hi, j, hj, rfl⟩ := h
  exact ⟨hi, hj⟩

/-- The best block returned by `find_longest_match` fits inside both
sequences (or is the trivial `(0, 0, 0)`). -/
theorem find_longest_match_bounds (a b : List Char) :
    find_longest_match a b = (0, 0, 0) ∨
      ((find_longest_match a b).1 + (find_longest_match a b).2.2 ≤ a.length ∧
       (find_longest_match a b).2.1 + (find_longest_match a b).2.2 ≤ b.length) := by
  unfold find_longest_match
  refine foldl_preserve
    (P := fun r : Nat × Nat × Nat =>
      r = (0, 0, 0) ∨
        (r.1 + r.2.2 ≤ a.length ∧ r.2.1 + r.2.2 ≤ b.length))
    _ _ _ (Or.inl rfl) ?_
  intro acc ij hij _
  dsimp only
  split
  · right
    obtain ⟨h1, h2⟩ := mem_idxPairs hij
    have t1 := lcp_le_left (a.drop ij.1) (b.drop ij.2)
    have t2 := lcp_le_right (a.drop ij.1) (b.drop ij.2)
    simp only [List.length_drop] at t1 t2
    dsimp only
    exact ⟨by omega, by omega⟩
  · assumption

theorem matchTotalAux_le_left :
    ∀ (fuel : Nat) (a b : List Char), matchTotalAux fuel a b ≤ a.length := by
  intro fuel
  induction fuel with
  | zero => intro a b; simp [matchTotalAux]
  | succ n ih =>
    intro a b
    rw [matchTotalAux]
    split
    · exact Nat.zero_le _
    · rename_i hk
      rcases find_longest_match_bounds a b with h0 | ⟨h1, h2⟩
      · rw [h0] at hk; simp at hk
      · have t1 := ih (a.take (find_longest_match a b).1)
          (b.take (find_longest_match a b).2.1)
        have t2 := ih
          (a.drop ((find_longest_match a b).1 + (find_longest_match a b).2.2))
          (b.drop ((find_longest_match a b).2.1 + (find_longest_match a b).2.2))
        simp only [List.length_take, List.length_drop] at t1 t2
        omega

theorem matchTotalAux_le_right :
    ∀ (fuel : Nat) (a b : List Char), matchTotalAux fuel a b ≤ b.length := by
  intro fuel
  induction fuel with
  | zero => intro a b; simp [matchTotalAux]
  | succ n ih =>
    intro a b
    rw [matchTotalAux]
    split
    · exact Nat.zero_le _
    · rename_i hk
      rcases find_longest_match_bounds a b with h0 | ⟨h1, h2⟩
      · rw [h0] at hk; simp at hk
      · have t1 := ih (a.take (find_longest_match a b).1)
          (b.take (find_longest_match a b).2.1)
        have t2 := ih
          (a.drop ((find_longest_match a b).1 + (find_longest_match a b).2.2))
          (b.drop ((find_longest_match a b).2.1 + (find_longest_match a b).2.2))
        simp only [List.length_take, List.length_drop] at t1 t2
        omega

theorem matchTotal_le_left (a b : List Char) : matchTotal a b ≤ a.length :=
  matchTotalAux_le_left _ a b

theorem matchTotal_le_right (a b : List Char) : matchTotal a b ≤ b.length :=
  matchTotalAux_le_right _ a b

theorem ratioQ_le_one (a b : List Char) : ratioQ a b ≤ 1 := by
  unfold ratioQ
  split
  · exact le_refl 1
  · rename_i h
    rw [Rat.mkRat_eq_div]
    have h1 := matchTotal_le_left a b
    have h2 := matchTotal_le_right a b
    have hpos : (0 : ℚ) < (a.length + b.length : ℕ) := by
      exact_mod_cast Nat.pos_of_ne_zero h
    rw [div_le_one hpos]
    exact_mod_cast (by omega : 2 * matchTotal a b ≤ a.length + b.length)

theorem compute_similarity_le_one (a b : List Char) : compute_similarity a b ≤ 1 := by
  unfold compute_similarity
  split
  · exact zero_le_one
  · exact ratioQ_le_one a b

theorem pairScore_le_one (a b : NewsItem) : pairScore a b ≤ 1 := by
  unfold pairScore
  split
  · exact le_refl 1
  · exact compute_similarity_le_one _ _

/-! ## Helper lemmas: the pair scan -/

/-- The loop with the cap break scores exactly the first
`cap - count` remaining pairs and reports truncation exactly when pairs
remain beyond the cap. -/
theorem scanPairs_eq (cap : Nat) :
    ∀ (l : List (Nat × Nat)) (count : Nat),
      scanPairs cap l count =
        (l.take (cap - count), decide (cap - count < l.length)) := by
  intro l
  induction l with
  | nil => intro count; simp [scanPairs]
  | cons p rest ih =>
    intro count
    rw [scanPairs]
    split
    · rename_i hlt
      have h0 : cap - count = 0 := by omega
      simp [h0]
    · rename_i hge
      rw [ih (count + 1)]
      have h1 : cap - count = (cap - (count + 1)) + 1 := by omega
      rw [h1]
      refine Prod.ext (by simp) ?_
      simp only [List.length_cons]
      exact decide_eq_decide.mpr (by omega)

theorem mem_allPairs {n : Nat} {p : Nat × Nat} :
    p ∈ allPairs n ↔ p.2 < p.1 ∧ p.1 < n := by
  constructor
  · intro h
    simp only [allPairs, List.mem_flatMap, List.mem_map, List.mem_range] at h
    obtain ⟨i, hi, j, hj, rfl⟩ := h
    exact ⟨hj, hi⟩
  · intro ⟨h1, h2⟩
    simp only [allPairs, List.mem_flatMap, List.mem_map, List.mem_range]
    exact ⟨p.1, h2, p.2, h1, rfl⟩

/-- The pair enumeration is strictly increasing in (i, then j): the scan
order is fixed and deterministic. -/
theorem allPairs_pairwise (n : Nat) : List.Pairwise pairLT (allPairs n) := by
  induction n with
  | zero => simp [allPairs]
  | succ m ih =>
    have hsplit : allPairs (m + 1) =
        allPairs m ++ (List.range m).map (fun j => (m, j)) := by
      simp [allPairs, List.range_succ]
    rw [hsplit, List.pairwise_append]
    refine ⟨ih, ?_, ?_⟩
    · rw [List.pairwise_map]
      apply List.Pairwise.imp ?_ (List.pairwise_lt_range m)
      intro a b hab
      exact Or.inr ⟨rfl, hab⟩
    · intro x hx y hy
      obtain ⟨-, hx2⟩ := mem_allPairs.mp hx
      simp only [List.mem_map, List.mem_range] at hy
      obtain ⟨j, -, rfl⟩ := hy
      exact Or.inl hx2

/-! ## Helper lemmas: the marking arrays -/

theorem foldl_markStep_eq (cond : SimilarityHit → Bool) :
    ∀ (hits : List SimilarityHit) (m : Nat → Bool) (idx : Nat),
      hits.foldl (markStep cond) m idx =
        (m idx || hits.any (fun h => cond h && h.i == idx)) := by
  intro hits
  induction hits with
  | nil => intro m idx; simp
  | cons h hs ih =>
    intro m idx
    rw [List.foldl_cons, List.any_cons, ih]
    unfold markStep
    cases hc : cond h with
    | false => simp [hc]
    | true =>
      by_cases hi : idx = h.i
      · simp [hc, hi]
      · have : (h.i == idx) = false := by
          simp [Ne.symm hi]
        simp [hc, hi, this]

/-- The `is_dup` array holds at `idx` exactly when some recorded hit of
type `"dup"` has `i = idx`. -/
theorem markDup_eq (hits : List SimilarityHit) (idx : Nat) :
    markDup hits idx = hits.any (fun h => h.type == "dup" && h.i == idx) := by
  unfold markDup
  rw [foldl_markStep_eq]
  simp

/-- The `is_similar` array holds at `idx` exactly when some recorded hit
of type other than `"dup"` has `i = idx`. -/
theorem markSimilar_eq (hits : List SimilarityHit) (idx : Nat) :
    markSimilar hits idx =
      hits.any (fun h => !(h.type == "dup") && h.i == idx) := by
  unfold markSimilar
  rw [foldl_markStep_eq]
  simp

/-! ## Helper lemmas: counting -/

theorem countP_disjoint_add {α : Type} (p q : α → Bool) :
    ∀ l : List α, (∀ x ∈ l, ¬(p x = true ∧ q x = true)) →
      l.countP p + l.countP q = l.countP (fun x => p x || q x) := by
  intro l
  induction l with
  | nil => intro _; simp
  | cons a t ih =>
    intro hd
    rw [List.countP_cons, List.countP_cons, List.countP_cons,
      ← ih (fun x hx => hd x (by simp [hx]))]
    by_cases hp : p a = true <;> by_cases hq : q a = true
    · exact absurd ⟨hp, hq⟩ (hd a (by simp))
    · simp only [hp, hq]; simp; omega
    · simp only [hp, hq]; simp; omega
    · simp only [Bool.not_eq_true] at hp hq
      simp [hp, hq]

theorem enumFrom_countP_snd {α : Type} (q : α → Bool) :
    ∀ (l : List α) (s : Nat),
      (l.enumFrom s).countP (fun p => q p.2) = l.countP q := by
  intro l
  induction l with
  | nil => intro s; simp
  | cons a t ih =>
    intro s
    rw [List.enumFrom_cons, List.countP_cons, List.countP_cons, ih]

theorem enum_countP_snd {α : Type} (q : α → Bool) (l : List α) :
    l.enum.countP (fun p => q p.2) = l.countP q :=
  enumFrom_countP_snd q l 0

theorem count_map_eq_countP (f : NewsItem → String) (items : List NewsItem)
    (k : String) :
    (items.map f).count k = items.countP (fun it => f it == k) := by
  induction items with
  | nil => simp
  | cons a t ih => simp [List.count_cons, List.countP_cons, ih]

/-! ## Helper lemmas: the Python string order and the overlap keys -/

theorem lexLtCh_asymm :
    ∀ a b : List Char, lexLtCh a b = true → lexLtCh b a = false := by
  intro a
  induction a with
  | nil =>
    intro b h
    cases b with
    | nil => simp [lexLtCh] at h
    | cons y bs => simp [lexLtCh]
  | cons x as ih =>
    intro b h
    cases b with
    | nil => simp [lexLtCh] at h
    | cons y bs =>
      by_cases hxy : x < y
      · have hyx : ¬ y < x := lt_asymm hxy
        simp [lexLtCh, hxy, hyx]
      · by_cases hyx : y < x
        · simp [lexLtCh, hxy, hyx] at h
        · simp only [lexLtCh, if_neg hxy, if_neg hyx] at h
          simp only [lexLtCh, if_neg hyx, if_neg hxy]
          exact ih bs h

theorem lexLtCh_antisymm :
    ∀ a b : List Char, lexLtCh a b = false → lexLtCh b a = false → a = b := by
  intro a
  induction a with
  | nil =>
    intro b h1 _
    cases b with
    | nil => rfl
    | cons y bs => simp [lexLtCh] at h1
  | cons x as ih =>
    intro b h1 h2
    cases b with
    | nil => simp [lexLtCh] at h2
    | cons y bs =>
      by_cases hxy : x < y
      · simp [lexLtCh, hxy] at h1
      · by_cases hyx : y < x
        · simp [lexLtCh, hyx] at h2
        · have hx : x = y := le_antisymm (not_lt.mp hyx) (not_lt.mp hxy)
          simp only [lexLtCh, if_neg hxy, if_neg hyx] at h1
          simp only [lexLtCh, if_neg hyx, if_neg hxy] at h2
          rw [hx, ih bs h1 h2]

theorem pyStrLt_asymm (s t : String) (h : pyStrLt s t = true) :
    pyStrLt t s = false :=
  lexLtCh_asymm _ _ h

theorem pyStrLt_antisymm (s t : String) (h1 : pyStrLt s t = false)
    (h2 : pyStrLt t s = false) : s = t := by
  cases s with
  | mk ds =>
    cases t with
    | mk dt => exact congrArg String.mk (lexLtCh_antisymm ds dt h1 h2)

/-- The sorted origin pair does not depend on the order of its two
arguments. -/
theorem sortPair_comm (x y : String) : sortPair x y = sortPair y x := by
  unfold sortPair
  by_cases h1 : pyStrLt y x = true
  · have h2 : pyStrLt x y = false := pyStrLt_asymm y x h1
    simp [h1, h2]
  · have h1f : pyStrLt y x = false := by
      simpa using h1
    by_cases h2 : pyStrLt x y = true
    · simp [h1f, h2]
    · have h2f : pyStrLt x y = false := by
        simpa using h2
      have : x = y := pyStrLt_antisymm x y h2f h1f
      rw [this]

/-- The second component of a sorted pair never sorts strictly before the
first. -/
theorem sortPair_snd_not_lt (x y : String) :
    pyStrLt (sortPair x y).2 (sortPair x y).1 = false := by
  unfold sortPair
  by_cases h : pyStrLt y x = true
  · simp only [if_pos h]
    exact pyStrLt_asymm y x h
  · simp only [if_neg h]
    simpa using h

theorem bumpKey_keys {m : List ((String × String) × Nat)}
    {k : String × String} {e' : (String × String) × Nat}
    (h : e' ∈ bumpKey m k) : e'.1 = k ∨ ∃ e ∈ m, e'.1 = e.1 := by
  unfold bumpKey at h
  split at h
  · simp only [List.mem_map] at h
    obtain ⟨e, he, rfl⟩ := h
    refine Or.inr ⟨e, he, ?_⟩
    split <;> rfl
  · rcases List.mem_append.mp h with he | he
    · exact Or.inr ⟨e', he, rfl⟩
    · simp only [List.mem_singleton] at he
      rw [he]
      exact Or.inl rfl

/-- Every key of the origin-overlap mapping is a sorted pair. -/
theorem overlapOf_keys (items : List NewsItem) (hits : List SimilarityHit) :
    ∀ e ∈ overlapOf items hits, pyStrLt e.1.2 e.1.1 = false := by
  unfold overlapOf
  refine foldl_preserve
    (P := fun m : List ((String × String) × Nat) =>
      ∀ e ∈ m, pyStrLt e.1.2 e.1.1 = false)
    _ _ _ (by simp) ?_
  intro acc h _ hacc e he
  rcases bumpKey_keys he with hk | ⟨e0, he0, heq⟩
  · rw [hk]
    exact sortPair_snd_not_lt _ _
  · rw [heq]
    exact hacc e0 he0

/-! ## Helper lemmas: bucket statistics -/

theorem bucketStat_total_def (items : List NewsItem) (hits : List SimilarityHit)
    (f : NewsItem → String) (k : String) :
    (bucketStat items hits f k).total = (items.map f).count k := rfl

theorem bucketStat_dup_def (items : List NewsItem) (hits : List SimilarityHit)
    (f : NewsItem → String) (k : String) :
    (bucketStat items hits f k).dup =
      items.enum.countP (fun p => f p.2 == k && markDup hits p.1) := rfl

theorem bucketStat_similar_def (items : List NewsItem) (hits : List SimilarityHit)
    (f : NewsItem → String) (k : String) :
    (bucketStat items hits f k).similar =
      items.enum.countP
        (fun p => f p.2 == k && !markDup hits p.1 && markSimilar hits p.1) := rfl

/-- The classification counts of a bucket, characterised by the hits: a
record is counted as duplicate when some `"dup"` hit has it as its later
index `i`; as similar when it is not a duplicate and some non-`"dup"` hit
has it as its later index; and the two classes never overlap, so each
record is counted at most once. -/
theorem bucketStat_classification (items : List NewsItem)
    (hits : List SimilarityHit) (f : NewsItem → String) (k : String) :
    (bucketStat items hits f k).dup =
        items.enum.countP (fun p => f p.2 == k &&
          hits.any (fun h => h.type == "dup" && h.i == p.1)) ∧
      (bucketStat items hits f k).similar =
        items.enum.countP (fun p => f p.2 == k &&
          !(hits.any (fun h => h.type == "dup" && h.i == p.1)) &&
          hits.any (fun h => !(h.type == "dup") && h.i == p.1)) ∧
      (bucketStat items hits f k).dup + (bucketStat items hits f k).similar ≤
        (bucketStat items hits f k).total := by
  have e1 : (bucketStat items hits f k).dup =
      items.enum.countP (fun p => f p.2 == k &&
        hits.any (fun h => h.type == "dup" && h.i == p.1)) := by
    rw [bucketStat_dup_def]
    apply List.countP_congr
    intro p _
    rw [markDup_eq]
  have e2 : (bucketStat items hits f k).similar =
      items.enum.countP (fun p => f p.2 == k &&
        !(hits.any (fun h => h.type == "dup" && h.i == p.1)) &&
        hits.any (fun h => !(h.type == "dup") && h.i == p.1)) := by
    rw [bucketStat_similar_def]
    apply List.countP_congr
    intro p _
    rw [markDup_eq, markSimilar_eq]
  refine ⟨e1, e2, ?_⟩
  rw [bucketStat_dup_def, bucketStat_similar_def, bucketStat_total_def,
    count_map_eq_countP, ← enum_countP_snd (fun it => f it == k) items]
  have hdisj : ∀ x ∈ items.enum,
      ¬((f x.2 == k && markDup hits x.1) = true ∧
        (f x.2 == k && !markDup hits x.1 && markSimilar hits x.1) = true) := by
    intro x _ hx
    obtain ⟨hA, hB⟩ := hx
    simp only [Bool.and_eq_true] at hA hB
    rw [hA.2] at hB
    simp at hB
  rw [countP_disjoint_add _ _ _ hdisj]
  apply List.countP_mono_left
  intro x _ hx
  simp only [Bool.or_eq_true, Bool.and_eq_true] at hx
  rcases hx with ⟨h1, _⟩ | ⟨⟨h1, _⟩, _⟩ <;> exact h1

theorem keysTotal_sum (items : List NewsItem) (hits : List SimilarityHit)
    (f : NewsItem → String) :
    (((items.map f).dedup).map
        (fun k => (bucketStat items hits f k).total)).sum = items.length := by
  have h : (fun k => (bucketStat items hits f k).total) =
      fun k => (items.map f).count k := rfl
  rw [h, List.sum_map_count_dedup_eq_length, List.length_map]

theorem bucketStat_rate_le (items : List NewsItem) (hits : List SimilarityHit)
    (f : NewsItem → String) (k : String) :
    (bucketStat items hits f k).dup_rate ≤
      (bucketStat items hits f k).similar_rate := by
  have h1 : (bucketStat items hits f k).dup_rate =
      mkRat ((bucketStat items hits f k).dup)
        (if (bucketStat items hits f k).total = 0 then 1
         else (bucketStat items hits f k).total) := rfl
  have h2 : (bucketStat items hits f k).similar_rate =
      mkRat ((bucketStat items hits f k).dup + (bucketStat items hits f k).similar)
        (if (bucketStat items hits f k).total = 0 then 1
         else (bucketStat items hits f k).total) := rfl
  rw [h1, h2, Rat.mkRat_eq_div, Rat.mkRat_eq_div]
  have hnum : ((((bucketStat items hits f k).dup : ℤ)) : ℚ) ≤
      (((((bucketStat items hits f k).dup +
        (bucketStat items hits f k).similar : ℕ) : ℤ)) : ℚ) := by
    push_cast
    have := Nat.le_add_right (bucketStat items hits f k).dup
      (bucketStat items hits f k).similar
    exact_mod_cast this
  have hden : (0 : ℚ) ≤
      (((if (bucketStat items hits f k).total = 0 then 1
        else (bucketStat items hits f k).total : ℕ)) : ℚ) := by
    positivity
  exact div_le_div_of_nonneg_right hnum hden

/-- `infer_origin` is total: every section string maps either to one of
the eleven fixed origin buckets or to the catch-all bucket that carries
the raw section string. -/
theorem infer_origin_total (sec : String) :
    infer_origin sec ∈ knownOrigins ∨
      infer_origin sec = "UnknownOrigin(" ++ sec ++ ")" := by
  unfold infer_origin
  repeat' split
  · exact Or.inl (List.Mem.head _)
  · exact Or.inl (List.Mem.tail _ (List.Mem.head _))
  · exact Or.inl (List.Mem.tail _ (List.Mem.tail _ (List.Mem.head _)))
  · exact Or.inl (List.Mem.tail _ (List.Mem.tail _ (List.Mem.tail _
      (List.Mem.head _))))
  · exact Or.inl (List.Mem.tail _ (List.Mem.tail _ (List.Mem.tail _
      (List.Mem.tail _ (List.Mem.head _)))))
  · exact Or.inl (List.Mem.tail _ (List.Mem.tail _ (List.Mem.tail _
      (List.Mem.tail _ (List.Mem.tail _ (List.Mem.head _))))))
  · exact Or.inl (List.Mem.tail _ (List.Mem.tail _ (List.Mem.tail _
      (List.Mem.tail _ (List.Mem.tail _ (List.Mem.tail _ (List.Mem.head _)))))))
  · exact Or.inl (List.Mem.tail _ (List.Mem.tail _ (List.Mem.tail _
      (List.Mem.tail _ (List.Mem.tail _ (List.Mem.tail _ (List.Mem.tail _
      (List.Mem.head _))))))))
  · exact Or.inl (List.Mem.tail _ (List.Mem.tail _ (List.Mem.tail _
      (List.Mem.tail _ (List.Mem.tail _ (List.Mem.tail _ (List.Mem.tail _
      (List.Mem.tail _ (List.Mem.head _)))))))))
  · exact Or.inl (List.Mem.tail _ (List.Mem.tail _ (List.Mem.tail _
      (List.Mem.tail _ (List.Mem.tail _ (List.Mem.tail _ (List.Mem.tail _
      (List.Mem.tail _ (List.Mem.tail _ (List.Mem.head _))))))))))
  · exact Or.inl (List.Mem.tail _ (List.Mem.tail _ (List.Mem.tail _
      (List.Mem.tail _ (List.Mem.tail _ (List.Mem.tail _ (List.Mem.tail _
      (List.Mem.tail _ (List.Mem.tail _ (List.Mem.tail _
      (List.Mem.head _)))))))))))
  · exact Or.inr rfl

/-! ## Claim C1 -/

/-- C1, corrected: classification is per-record and each record is counted
at most once, but it is derived only from the hits in which the record is
the later-indexed member `i` of the pair (the loop marks `is_dup[i]` /
`is_similar[i]`, never index `j`): a record is counted as duplicate in
its source, section and origin buckets exactly when some recorded hit of
type `"dup"` has it as its later index; otherwise as similar exactly when
some recorded non-`"dup"` hit has it as its later index; otherwise it is
unique, and dup + similar never exceeds the bucket total. -/
theorem spec_c1 (dupT simT : ℚ) (cap : Nat) (items : List NewsItem) (k : String) :
    (((analyze_duplicates dupT simT cap items).sourceStat k).dup =
        items.enum.countP (fun p => p.2.source == k &&
          (analyze_duplicates dupT simT cap items).hits.any
            (fun h => h.type == "dup" && h.i == p.1)) ∧
      ((analyze_duplicates dupT simT cap items).sourceStat k).similar =
        items.enum.countP (fun p => p.2.source == k &&
          !((analyze_duplicates dupT simT cap items).hits.any
            (fun h => h.type == "dup" && h.i == p.1)) &&
          (analyze_duplicates dupT simT cap items).hits.any
            (fun h => !(h.type == "dup") && h.i == p.1)) ∧
      ((analyze_duplicates dupT simT cap items).sourceStat k).dup +
          ((analyze_duplicates dupT simT cap items).sourceStat k).similar ≤
        ((analyze_duplicates dupT simT cap items).sourceStat k).total) ∧
    (((analyze_duplicates dupT simT cap items).sectionStat k).dup =
        items.enum.countP (fun p => p.2.sec == k &&
          (analyze_duplicates dupT simT cap items).hits.any
            (fun h => h.type == "dup" && h.i == p.1)) ∧
      ((analyze_duplicates dupT simT cap items).sectionStat k).similar =
        items.enum.countP (fun p => p.2.sec == k &&
          !((analyze_duplicates dupT simT cap items).hits.any
            (fun h => h.type == "dup" && h.i == p.1)) &&
          (analyze_duplicates dupT simT cap items).hits.any
            (fun h => !(h.type == "dup") && h.i == p.1)) ∧
      ((analyze_duplicates dupT simT cap items).sectionStat k).dup +
          ((analyze_duplicates dupT simT cap items).sectionStat k).similar ≤
        ((analyze_duplicates dupT simT cap items).sectionStat k).total) ∧
    (((analyze_duplicates dupT simT cap items).originStat k).dup =
        items.enum.countP (fun p => p.2.origin == k &&
          (analyze_duplicates dupT simT cap items).hits.any
            (fun h => h.type == "dup" && h.i == p.1)) ∧
      ((analyze_duplicates dupT simT cap items).originStat k).similar =
        items.enum.countP (fun p => p.2.origin == k &&
          !((analyze_duplicates dupT simT cap items).hits.any
            (fun h => h.type == "dup" && h.i == p.1)) &&
          (analyze_duplicates dupT simT cap items).hits.any
            (fun h => !(h.type == "dup") && h.i == p.1)) ∧
      ((analyze_duplicates dupT simT cap items).originStat k).dup +
          ((analyze_duplicates dupT simT cap items).originStat k).similar ≤
        ((analyze_duplicates dupT simT cap items).originStat k).total) :=
  ⟨bucketStat_classification items _ _ k,
   bucketStat_classification items _ _ k,
   bucketStat_classification items _ _ k⟩

/-- C1 fails on the code as stated: on two records with identical
non-empty comparison texts and the same source `"A"`, the pair (1, 0)
is recorded as a `"dup"` hit with score 1, so by the claim both records
match a duplicate-threshold pair and the source bucket should count 2
duplicates; the code marks only the later index `i = 1` and counts 1. -/
theorem c1_counterexample : ¬ c1ClaimHolds exC1 := by
  unfold c1ClaimHolds
  decide

/-! ## Claim C2 -/

/-- C2, corrected: `compute_similarity` is 0 whenever either comparison
text is empty, and the pipeline's pair score of an empty-text record
against any record with a different (hence non-empty) text is 0, so such
pairs are never recorded; but against another record whose text is also
empty, the exact-equality short-circuit of the loop scores the pair 1.0
(not 0.0), so a pair of empty-text records is recorded as a duplicate
hit. -/
theorem spec_c2 (A B : NewsItem) (h : A.text_for_similarity = []) :
    compute_similarity A.text_for_similarity B.text_for_similarity = 0 ∧
    compute_similarity B.text_for_similarity A.text_for_similarity = 0 ∧
    (B.text_for_similarity ≠ [] → pairScore A B = 0 ∧ pairScore B A = 0) ∧
    (B.text_for_similarity = [] → pairScore A B = 1 ∧ pairScore B A = 1) := by
  refine ⟨?_, ?_, ?_, ?_⟩
  · unfold compute_similarity
    rw [if_pos (Or.inl h)]
  · unfold compute_similarity
    rw [if_pos (Or.inr h)]
  · intro hB
    have hne : A.text_for_similarity ≠ B.text_for_similarity := by
      rw [h]
      exact fun he => hB he.symm
    have hne' : B.text_for_similarity ≠ A.text_for_similarity := fun he => hne he.symm
    constructor
    · unfold pairScore
      rw [if_neg hne]
      unfold compute_similarity
      rw [if_pos (Or.inl h)]
    · unfold pairScore
      rw [if_neg hne']
      unfold compute_similarity
      rw [if_pos (Or.inr h)]
  · intro hB
    constructor
    · unfold pairScore
      rw [if_pos (by rw [h, hB])]
    · unfold pairScore
      rw [if_pos (by rw [h, hB])]

/-- Witness for C2's theorem at a concrete empty-text record and a
concrete non-empty record. -/
theorem spec_c2_witness :
    compute_similarity (mkTestItem 0 "A" "S" [] "O").text_for_similarity
        (mkTestItem 1 "B" "S" "x".data "O").text_for_similarity = 0 ∧
    compute_similarity (mkTestItem 1 "B" "S" "x".data "O").text_for_similarity
        (mkTestItem 0 "A" "S" [] "O").text_for_similarity = 0 ∧
    ((mkTestItem 1 "B" "S" "x".data "O").text_for_similarity ≠ [] →
      pairScore (mkTestItem 0 "A" "S" [] "O") (mkTestItem 1 "B" "S" "x".data "O") = 0 ∧
      pairScore (mkTestItem 1 "B" "S" "x".data "O") (mkTestItem 0 "A" "S" [] "O") = 0) ∧
    ((mkTestItem 1 "B" "S" "x".data "O").text_for_similarity = [] →
      pairScore (mkTestItem 0 "A" "S" [] "O") (mkTestItem 1 "B" "S" "x".data "O") = 1 ∧
      pairScore (mkTestItem 1 "B" "S" "x".data "O") (mkTestItem 0 "A" "S" [] "O") = 1) :=
  spec_c2 (mkTestItem 0 "A" "S" [] "O") (mkTestItem 1 "B" "S" "x".data "O") rfl

/-- C2 fails on the code as stated: two records whose comparison texts
are both empty score 1.0 against each other (the equality short-circuit
precedes the empty-string check of `compute_similarity`), the pair is
recorded as a `"dup"` hit, and record 1 is counted as a duplicate in its
source bucket instead of remaining unique. -/
theorem c2_counterexample :
    (exC2.getD 0 defaultNewsItem).text_for_similarity = [] ∧
    (exC2.getD 1 defaultNewsItem).text_for_similarity = [] ∧
    pairScore (exC2.getD 1 defaultNewsItem) (exC2.getD 0 defaultNewsItem) = 1 ∧
    (analyzeDefault exC2).hits = [⟨1, 0, 1, "dup"⟩] ∧
    ((analyzeDefault exC2).sourceStat "B").dup = 1 := by
  decide

/-! ## Claim C3 -/

/-- C3: the pair scan evaluates the unordered pairs in the fixed order
(ascending `i`, then ascending `j < i`), scores exactly the first
`min cap total` pairs, reports truncation exactly when pairs remain
beyond the cap while still returning the hits of the scored prefix, and
with `max_pair_comparisons = 1` on an input of 10 records exactly one
pair is scored and the truncation flag is set. -/
theorem spec_c3 (dupT simT : ℚ) (cap : Nat) (items : List NewsItem) :
    (scanPairs cap (allPairs items.length) 0).1 =
        (allPairs items.length).take cap ∧
    (scanPairs cap (allPairs items.length) 0).1.length =
        min cap (allPairs items.length).length ∧
    ((scanPairs cap (allPairs items.length) 0).2 = true ↔
        cap < (allPairs items.length).length) ∧
    List.Pairwise pairLT (scanPairs cap (allPairs items.length) 0).1 ∧
    (analyze_duplicates dupT simT cap items).hits =
        hitsOf dupT simT items ((allPairs items.length).take cap) ∧
    ((analyze_duplicates dupT simT cap items).truncated = true ↔
        cap < (allPairs items.length).length) ∧
    (scanPairs 1 (allPairs 10) 0).1.length = 1 ∧
    (scanPairs 1 (allPairs 10) 0).2 = true := by
  have hs := scanPairs_eq cap (allPairs items.length) 0
  simp only [Nat.sub_zero] at hs
  refine ⟨?_, ?_, ?_, ?_, ?_, ?_, by decide, by decide⟩
  · rw [hs]
  · rw [hs]
    simp [List.length_take]
  · rw [hs]
    simp
  · rw [hs]
    exact List.Pairwise.sublist (List.take_sublist _ _) (allPairs_pairwise _)
  · show hitsOf dupT simT items (scanPairs cap (allPairs items.length) 0).1 = _
    rw [hs]
  · show (scanPairs cap (allPairs items.length) 0).2 = true ↔ _
    rw [hs]
    simp

/-! ## Claim C4 -/

/-- C4, corrected: the similarity score is symmetric on equal texts and
whenever either text is empty; it is not symmetric in general (see the
counterexample: the longest-matching-block tie is broken towards the
earliest start in the first argument, which changes the recursive
decomposition). -/
theorem spec_c4 (a b : List Char) (h : a = b ∨ a = [] ∨ b = []) :
    compute_similarity a b = compute_similarity b a := by
  rcases h with rfl | rfl | rfl
  · rfl
  · unfold compute_similarity
    rw [if_pos (Or.inl rfl), if_pos (Or.inr rfl)]
  · unfold compute_similarity
    rw [if_pos (Or.inr rfl), if_pos (Or.inl rfl)]

/-- Witness for C4's theorem with an empty first text. -/
theorem spec_c4_witness :
    compute_similarity [] "x".data = compute_similarity "x".data [] :=
  spec_c4 [] "x".data (Or.inr (Or.inl rfl))

/-- C4 fails on the code as stated: the two maximal blocks of
`"pqzruv"` vs `"uvpqr"` are `"pq"` and `"uv"`; scanning left to right the
first argument picks `"pq"` and then still matches `"r"` (score 6/11),
while the swapped call picks `"uv"` and loses both `"pq"` and `"r"`
(score 4/11). -/
theorem c4_counterexample :
    compute_similarity "pqzruv".data "uvpqr".data = mkRat 6 11 ∧
    compute_similarity "uvpqr".data "pqzruv".data = mkRat 4 11 ∧
    compute_similarity "pqzruv".data "uvpqr".data ≠
      compute_similarity "uvpqr".data "pqzruv".data := by
  refine ⟨by decide, by decide, by decide⟩

/-! ## Claim C5 -/

/-- C5: parsing is total — a record is always produced, fields absent
from the line default to the `"Unknown"` sentinel (source, section) or
the empty string (title, summary), and origin inference is total: every
section string maps either to a known origin bucket or to the catch-all
`UnknownOrigin(...)` bucket that preserves the raw section string. -/
theorem spec_c5 (line : String) (idx : Nat) (sec : String) :
    (parse_line_to_item line idx).idx = idx ∧
    (getField (fieldsOf line) "source" = none →
      (parse_line_to_item line idx).source = "Unknown") ∧
    (getField (fieldsOf line) "section" = none →
      (parse_line_to_item line idx).sec = "Unknown") ∧
    (getField (fieldsOf line) "title" = none →
      (parse_line_to_item line idx).title = "") ∧
    (getField (fieldsOf line) "summary" = none →
      getField (fieldsOf line) "description" = none →
      (parse_line_to_item line idx).summary = "") ∧
    (infer_origin sec ∈ knownOrigins ∨
      infer_origin sec = "UnknownOrigin(" ++ sec ++ ")") := by
  refine ⟨rfl, ?_, ?_, ?_, ?_, ?_⟩
  · intro h
    simp [parse_line_to_item, h]
  · intro h
    simp [parse_line_to_item, h]
  · intro h
    simp [parse_line_to_item, h]
  · intro h1 h2
    simp [parse_line_to_item, h1, h2, pyOr]
  · exact infer_origin_total sec

/-- Witness for C5's theorem: a line with no recognised field still
yields a record with all defaults, and an unknown section maps to the
catch-all bucket. -/
theorem spec_c5_witness :
    (parse_line_to_item "hello world" 0).source = "Unknown" ∧
    (parse_line_to_item "hello world" 0).sec = "Unknown" ∧
    (parse_line_to_item "hello world" 0).title = "" ∧
    (parse_line_to_item "hello world" 0).summary = "" ∧
    (infer_origin "Weird" ∈ knownOrigins ∨
      infer_origin "Weird" = "UnknownOrigin(" ++ "Weird" ++ ")") :=
  ⟨(spec_c5 "hello world" 0 "Weird").2.1 (by decide),
   (spec_c5 "hello world" 0 "Weird").2.2.1 (by decide),
   (spec_c5 "hello world" 0 "Weird").2.2.2.1 (by decide),
   (spec_c5 "hello world" 0 "Weird").2.2.2.2.1 (by decide) (by decide),
   (spec_c5 "hello world" 0 "Weird").2.2.2.2.2⟩

/-! ## Claim C6 -/

/-- C6: for every input record set, the `total` fields of the per-source
buckets sum to the number of input records, and likewise for the
per-section and per-origin buckets. -/
theorem spec_c6 (dupT simT : ℚ) (cap : Nat) (items : List NewsItem) :
    (((analyze_duplicates dupT simT cap items).sourceKeys).map
        (fun k => ((analyze_duplicates dupT simT cap items).sourceStat k).total)).sum
        = items.length ∧
    (((analyze_duplicates dupT simT cap items).sectionKeys).map
        (fun k => ((analyze_duplicates dupT simT cap items).sectionStat k).total)).sum
        = items.length ∧
    (((analyze_duplicates dupT simT cap items).originKeys).map
        (fun k => ((analyze_duplicates dupT simT cap items).originStat k).total)).sum
        = items.length :=
  ⟨keysTotal_sum items _ _, keysTotal_sum items _ _, keysTotal_sum items _ _⟩

/-! ## Claim C7 -/

/-- C7: the origin-overlap matrix is unordered — the key recorded for a
hit is the sorted pair of the two origins, so it does not depend on which
record of the pair belongs to which origin, every stored key is sorted,
and `(A, B)` and `(B, A)` never occur as distinct keys. -/
theorem spec_c7 (dupT simT : ℚ) (cap : Nat) (items : List NewsItem) :
    (∀ e ∈ (analyze_duplicates dupT simT cap items).originOverlap,
        pyStrLt e.1.2 e.1.1 = false) ∧
    (∀ x y : String, sortPair x y = sortPair y x) ∧
    (∀ A B : String, A ≠ B →
      ¬((A, B) ∈ ((analyze_duplicates dupT simT cap items).originOverlap).map Prod.fst ∧
        (B, A) ∈ ((analyze_duplicates dupT simT cap items).originOverlap).map Prod.fst)) := by
  refine ⟨overlapOf_keys items _, sortPair_comm, ?_⟩
  intro A B hne hmem
  obtain ⟨hAB, hBA⟩ := hmem
  simp only [List.mem_map] at hAB hBA
  obtain ⟨e1, he1, hk1⟩ := hAB
  obtain ⟨e2, he2, hk2⟩ := hBA
  have h1 := overlapOf_keys items _ e1 he1
  have h2 := overlapOf_keys items _ e2 he2
  rw [hk1] at h1
  rw [hk2] at h2
  exact hne (pyStrLt_antisymm A B h2 h1)

/-- Witness for C7's theorem on a concrete analysis with one cross-origin
hit. -/
theorem spec_c7_witness :
    pyStrLt "O2" "O1" = false ∧
    sortPair "O1" "O2" = sortPair "O2" "O1" ∧
    ¬((("O1", "O2") ∈ ((analyzeDefault exC2).originOverlap).map Prod.fst) ∧
      (("O2", "O1") ∈ ((analyzeDefault exC2).originOverlap).map Prod.fst)) :=
  ⟨(spec_c7 DUP_THRESHOLD SIMILAR_THRESHOLD MAX_PAIR_COMPARISONS exC2).1
      (("O1", "O2"), 1) (by decide),
   (spec_c7 DUP_THRESHOLD SIMILAR_THRESHOLD MAX_PAIR_COMPARISONS exC2).2.1 "O1" "O2",
   (spec_c7 DUP_THRESHOLD SIMILAR_THRESHOLD MAX_PAIR_COMPARISONS exC2).2.2 "O1" "O2"
      (by decide)⟩

/-! ## Claim C8 -/

/-- C8: in every source, section and origin bucket, the duplicate rate is
at most the duplicate-or-similar rate (the code's `similar_rate`). -/
theorem spec_c8 (dupT simT : ℚ) (cap : Nat) (items : List NewsItem) (k : String) :
    ((analyze_duplicates dupT simT cap items).sourceStat k).dup_rate ≤
        ((analyze_duplicates dupT simT cap items).sourceStat k).similar_rate ∧
    ((analyze_duplicates dupT simT cap items).sectionStat k).dup_rate ≤
        ((analyze_duplicates dupT simT cap items).sectionStat k).similar_rate ∧
    ((analyze_duplicates dupT simT cap items).originStat k).dup_rate ≤
        ((analyze_duplicates dupT simT cap items).originStat k).similar_rate :=
  ⟨bucketStat_rate_le items _ _ k, bucketStat_rate_le items _ _ k,
   bucketStat_rate_le items _ _ k⟩

/-! ## Claim C10 -/

/-- C10: every recorded hit is a valid unordered pair of distinct record
indices (`j < i < n`), its score lies between the similarity threshold
and 1, and its tag is `"dup"` exactly when the score reaches the
duplicate threshold, else `"similar"`. -/
theorem spec_c10 (dupT simT : ℚ) (cap : Nat) (items : List NewsItem)
    (h : SimilarityHit)
    (hmem : h ∈ (analyze_duplicates dupT simT cap items).hits) :
    h.j < h.i ∧ h.i < items.length ∧ simT ≤ h.score ∧ h.score ≤ 1 ∧
      (h.type = "dup" ↔ dupT ≤ h.score) ∧
      (h.type = "dup" ∨ h.type = "similar") := by
  have hmem' : h ∈ hitsOf dupT simT items
      (scanPairs cap (allPairs items.length) 0).1 := hmem
  unfold hitsOf at hmem'
  simp only [List.mem_filterMap] at hmem'
  obtain ⟨ij, hij, hsome⟩ := hmem'
  by_cases hsc : simT ≤ pairScore (items.getD ij.1 defaultNewsItem)
      (items.getD ij.2 defaultNewsItem)
  · rw [if_pos hsc] at hsome
    have hh := Option.some.inj hsome
    subst hh
    have hijmem : ij ∈ allPairs items.length := by
      rw [scanPairs_eq] at hij
      simp only [Nat.sub_zero] at hij
      exact List.mem_of_mem_take hij
    obtain ⟨hji, hin⟩ := mem_allPairs.mp hijmem
    refine ⟨hji, hin, hsc, pairScore_le_one _ _, ?_, ?_⟩
    · show (if dupT ≤ pairScore (items.getD ij.1 defaultNewsItem)
          (items.getD ij.2 defaultNewsItem) then "dup" else "similar") = "dup" ↔ _
      by_cases hd : dupT ≤ pairScore (items.getD ij.1 defaultNewsItem)
          (items.getD ij.2 defaultNewsItem)
      · rw [if_pos hd]
        exact ⟨fun _ => hd, fun _ => rfl⟩
      · rw [if_neg hd]
        exact ⟨fun he => absurd he (by decide), fun hle => absurd hle hd⟩
    · show (if dupT ≤ pairScore (items.getD ij.1 defaultNewsItem)
            (items.getD ij.2 defaultNewsItem) then "dup" else "similar") = "dup" ∨
          (if dupT ≤ pairScore (items.getD ij.1 defaultNewsItem)
            (items.getD ij.2 defaultNewsItem) then "dup" else "similar") = "similar"
      by_cases hd : dupT ≤ pairScore (items.getD ij.1 defaultNewsItem)
          (items.getD ij.2 defaultNewsItem)
      · rw [if_pos hd]
        exact Or.inl rfl
      · rw [if_neg hd]
        exact Or.inr rfl
  · rw [if_neg hsc] at hsome
    exact absurd hsome (by simp)

/-- Witness for C10's theorem at the hit recorded on a concrete input. -/
theorem spec_c10_witness :
    (⟨1, 0, 1, "dup"⟩ : SimilarityHit).j < (⟨1, 0, 1, "dup"⟩ : SimilarityHit).i ∧
    (⟨1, 0, 1, "dup"⟩ : SimilarityHit).i < exC1.length ∧
    SIMILAR_THRESHOLD ≤ (⟨1, 0, 1, "dup"⟩ : SimilarityHit).score ∧
    (⟨1, 0, 1, "dup"⟩ : SimilarityHit).score ≤ 1 ∧
    ((⟨1, 0, 1, "dup"⟩ : SimilarityHit).type = "dup" ↔
      DUP_THRESHOLD ≤ (⟨1, 0, 1, "dup"⟩ : SimilarityHit).score) ∧
    ((⟨1, 0, 1, "dup"⟩ : SimilarityHit).type = "dup" ∨
      (⟨1, 0, 1, "dup"⟩ : SimilarityHit).type = "similar") :=
  spec_c10 DUP_THRESHOLD SIMILAR_THRESHOLD MAX_PAIR_COMPARISONS exC1
    ⟨1, 0, 1, "dup"⟩ (by decide)
